import Mathlib

set_option maxRecDepth 100000

/-!
Verification development for the AI response orchestration layer of a
wellness-platform backend (`backend/services/gemini_service.py` and
`backend/services/cache_service.py`).

The Python source is shallowly embedded: dictionaries/JSON values become the
`Json` inductive, the external datastore tables become explicit lists of rows,
the non-deterministic upstream generation service becomes an oracle
`Nat → Outcome` indexed by attempt number, and wall-clock time becomes an
explicit `Nat` parameter (seconds). All definitions are executable.
-/

namespace MindMate

/-- JSON-like values: the shape of the `context` dictionaries passed to
`GeminiService.generate_response` and of the values stored by `CacheService`.
Numeric context values are modelled as integers; floats are out of scope of
the claims considered here. -/
inductive Json where
  | str (s : String)
  | num (n : Int)
  | bool (b : Bool)
  | null
  | arr (xs : List Json)
  | obj (fields : List (String × Json))

/-- Enumeration `PromptType` from `gemini_service.py` (a `str` Enum). -/
inductive PromptType where
  | THERAPY_RESPONSE
  | THERAPY_REFLECTION
  | EMOTION_ANALYSIS
  | COGNITIVE_INSIGHT
  | BEHAVIOR_ANALYSIS
  | MOOD_SUMMARY
  | SESSION_SUMMARY
deriving Repr, DecidableEq

/-- The underlying string value of each `PromptType` member (it is a
`str`-subclass enum, so `json.dumps` serializes it as this value). -/
def PromptType.value : PromptType → String
  | .THERAPY_RESPONSE => "therapy_response"
  | .THERAPY_REFLECTION => "therapy_reflection"
  | .EMOTION_ANALYSIS => "emotion_analysis"
  | .COGNITIVE_INSIGHT => "cognitive_insight"
  | .BEHAVIOR_ANALYSIS => "behavior_analysis"
  | .MOOD_SUMMARY => "mood_summary"
  | .SESSION_SUMMARY => "session_summary"

/-- Escaping applied by `json.dumps` to string content (the backslash, the
double quote and the common control characters; other characters are kept
verbatim — sufficient for the strings manipulated by the claims). -/
def jsonEscapeChar (c : Char) : String :=
  if c = '\\' then "\\\\"
  else if c = '"' then "\\\""
  else if c = '\n' then "\\n"
  else if c = '\t' then "\\t"
  else if c = '\r' then "\\r"
  else String.singleton c

def jsonEscape (s : String) : String :=
  String.join (s.toList.map jsonEscapeChar)

mutual

/-- Serialization in the style of `json.dumps(..)` with the default
separators `", "` and `": "`; field order is emitted as given (key sorting
is applied separately by `canon`, mirroring `sort_keys=True`). -/
def dumps : Json → String
  | .str s => "\"" ++ jsonEscape s ++ "\""
  | .num n => toString n
  | .bool b => if b then "true" else "false"
  | .null => "null"
  | .arr xs => "[" ++ dumpsList xs ++ "]"
  | .obj fs => "\x7b" ++ dumpsFields fs ++ "\x7d"

def dumpsList : List Json → String
  | [] => ""
  | [x] => dumps x
  | x :: xs => dumps x ++ ", " ++ dumpsList xs

def dumpsFields : List (String × Json) → String
  | [] => ""
  | [p] => "\"" ++ jsonEscape p.1 ++ "\": " ++ dumps p.2
  | p :: fs => "\"" ++ jsonEscape p.1 ++ "\": " ++ dumps p.2 ++ ", " ++ dumpsFields fs

end

/-- Lexicographic comparison of character lists by Unicode scalar value: the
order in which Python compares the key strings for `sort_keys=True`. -/
def charsLe : List Char → List Char → Bool
  | [], _ => true
  | _ :: _, [] => false
  | a :: as, b :: bs => decide (a < b) || (decide (a = b) && charsLe as bs)

theorem charsLe_total : ∀ a b : List Char, charsLe a b = true ∨ charsLe b a = true
  | [], _ => Or.inl rfl
  | _ :: _, [] => Or.inr rfl
  | a :: as, b :: bs => by
    rcases lt_trichotomy a b with h | h | h
    · left; simp [charsLe, h]
    · subst h
      rcases charsLe_total as bs with h2 | h2
      · left; simp [charsLe, h2]
      · right; simp [charsLe, h2]
    · right; simp [charsLe, h]

theorem charsLe_trans : ∀ a b c : List Char,
    charsLe a b = true → charsLe b c = true → charsLe a c = true
  | [], _, _, _, _ => rfl
  | _ :: _, [], _, h1, _ => by simp [charsLe] at h1
  | _ :: _, _ :: _, [], _, h2 => by simp [charsLe] at h2
  | a :: as, b :: bs, c :: cs, h1, h2 => by
    simp only [charsLe, Bool.or_eq_true, Bool.and_eq_true, decide_eq_true_eq] at h1 h2 ⊢
    rcases h1 with h1 | ⟨he1, h1⟩
    · rcases h2 with h2 | ⟨he2, h2⟩
      · exact Or.inl (lt_trans h1 h2)
      · exact Or.inl (he2 ▸ h1)
    · rcases h2 with h2 | ⟨he2, h2⟩
      · exact Or.inl (he1 ▸ h2)
      · exact Or.inr ⟨he1.trans he2, charsLe_trans as bs cs h1 h2⟩

theorem charsLe_antisymm : ∀ a b : List Char,
    charsLe a b = true → charsLe b a = true → a = b
  | [], [], _, _ => rfl
  | [], _ :: _, _, h2 => by simp [charsLe] at h2
  | _ :: _, [], h1, _ => by simp [charsLe] at h1
  | a :: as, b :: bs, h1, h2 => by
    simp only [charsLe, Bool.or_eq_true, Bool.and_eq_true, decide_eq_true_eq] at h1 h2
    rcases h1 with h1 | ⟨he1, h1⟩
    · rcases h2 with h2 | ⟨he2, h2⟩
      · exact absurd (lt_trans h1 h2) (lt_irrefl a)
      · exact absurd h1 (he2 ▸ lt_irrefl b)
    · rcases h2 with h2 | ⟨he2, h2⟩
      · exact absurd h2 (he1 ▸ lt_irrefl b)
      · rw [he1, charsLe_antisymm as bs h1 h2]

theorem stringDataEq {s t : String} (h : s.data = t.data) : s = t := by
  cases s; cases t; exact congrArg String.mk h

/-- Key comparison used to model the stable key ordering of
`json.dumps(..., sort_keys=True)`. -/
def keyLE (p q : String × Json) : Prop := charsLe p.1.data q.1.data = true

instance : DecidableRel keyLE := fun p q =>
  inferInstanceAs (Decidable (charsLe p.1.data q.1.data = true))

instance : IsTotal (String × Json) keyLE := ⟨fun p q => charsLe_total p.1.data q.1.data⟩

instance : IsTrans (String × Json) keyLE :=
  ⟨fun _ _ _ h1 h2 => charsLe_trans _ _ _ h1 h2⟩

/-- Strict version of `keyLE`; antisymmetric, used to identify two sorted
field lists that are permutations of each other. -/
def keyLT (p q : String × Json) : Prop := keyLE p q ∧ p.1 ≠ q.1

instance : IsAntisymm (String × Json) keyLT :=
  ⟨fun _ _ h1 h2 => absurd (stringDataEq (charsLe_antisymm _ _ h1.1 h2.1)) h1.2⟩

/-- Stable sorting of an object's fields by key. -/
def sortFields (fs : List (String × Json)) : List (String × Json) :=
  List.insertionSort keyLE fs

mutual

/-- Canonicalization performed by `json.dumps(..., sort_keys=True)`: every
object's fields are emitted in sorted key order, recursively. -/
def canon : Json → Json
  | .str s => .str s
  | .num n => .num n
  | .bool b => .bool b
  | .null => .null
  | .arr xs => .arr (canonList xs)
  | .obj fs => .obj (sortFields (canonFields fs))

def canonList : List Json → List Json
  | [] => []
  | x :: xs => canon x :: canonList xs

def canonFields : List (String × Json) → List (String × Json)
  | [] => []
  | p :: fs => (p.1, canon p.2) :: canonFields fs

end

mutual

/-- Checks that every object node (at any depth) has pairwise distinct keys —
the well-formedness property a Python `dict` guarantees by construction. -/
def nodupKeysJ : Json → Bool
  | .str _ => true
  | .num _ => true
  | .bool _ => true
  | .null => true
  | .arr xs => nodupKeysList xs
  | .obj fs => decide ((fs.map Prod.fst).Nodup) && nodupKeysFields fs

def nodupKeysList : List Json → Bool
  | [] => true
  | x :: xs => nodupKeysJ x && nodupKeysList xs

def nodupKeysFields : List (String × Json) → Bool
  | [] => true
  | p :: fs => nodupKeysJ p.2 && nodupKeysFields fs

end

/-- Hexadecimal digit for a value below 16. -/
def hexDigit (n : Nat) : Char :=
  if n < 10 then Char.ofNat (48 + n) else Char.ofNat (87 + n)

def toHex : Nat → Nat → String
  | 0, _ => ""
  | d + 1, n => toHex d (n / 16) ++ String.singleton (hexDigit (n % 16))

/-- Models `hashlib.md5(s.encode()).hexdigest()`. The source computes the MD5
digest of the serialized cache data; every claim here depends only on the
digest being a fixed deterministic function of its input string, so the MD5
compression function itself is modelled by a concrete FNV-style 128-bit
digest rendered as 32 hex digits. -/
def md5Hex (s : String) : String :=
  toHex 32 (s.toList.foldl
    (fun h c => ((h ^^^ c.toNat) * 309485009821345068724781371) % (2 ^ 128))
    144066263297769815596495629667062367629)

/-- `GeminiService._get_cache_key`: MD5 of
`json.dumps({'type': prompt_type, 'context': context}, sort_keys=True)`. -/
def getCacheKey (pt : PromptType) (ctx : List (String × Json)) : String :=
  md5Hex (dumps (canon (Json.obj [("type", Json.str pt.value), ("context", Json.obj ctx)])))

/-- `CacheService._generate_cache_key`: MD5 of
`json.dumps({'prefix': prefix, 'args': args, 'kwargs': kwargs}, sort_keys=True)`. -/
def generateCacheKey (pre : String) (args : List Json) (kwargs : List (String × Json)) : String :=
  md5Hex (dumps (canon (Json.obj
    [("prefix", Json.str pre), ("args", Json.arr args), ("kwargs", Json.obj kwargs)])))

mutual

/-- Python `repr()` of a JSON-like value, as used by `str.format` when a
non-string value is substituted inside a container. -/
def pyRepr : Json → String
  | .str s => "\x27" ++ s ++ "\x27"
  | .num n => toString n
  | .bool b => if b then "True" else "False"
  | .null => "None"
  | .arr xs => "[" ++ pyReprList xs ++ "]"
  | .obj fs => "\x7b" ++ pyReprFields fs ++ "\x7d"

def pyReprList : List Json → String
  | [] => ""
  | [x] => pyRepr x
  | x :: xs => pyRepr x ++ ", " ++ pyReprList xs

def pyReprFields : List (String × Json) → String
  | [] => ""
  | [p] => "\x27" ++ p.1 ++ "\x27: " ++ pyRepr p.2
  | p :: fs => "\x27" ++ p.1 ++ "\x27: " ++ pyRepr p.2 ++ ", " ++ pyReprFields fs

end

/-- Python `str()` of a JSON-like value, as applied by `str.format` to a
substituted field. -/
def pyStr : Json → String
  | .str s => s
  | v => pyRepr v

/-- One segment of a format template: literal text (already in its formatted
form, i.e. with `\x7b\x7b` collapsed to `\x7b`) or a named placeholder. -/
inductive Seg where
  | lit (s : String)
  | field (name : String)

/-- The template dictionary of `GeminiService._build_prompt`, segmented at its
`\x7bname\x7d` placeholders. -/
def templateSegs : PromptType → List Seg
  | .THERAPY_RESPONSE =>
    [Seg.lit "You are a compassionate AI therapist. Respond to the user\x27s message with empathy and support.\n\nUser\x27s message: ",
     Seg.field "message",
     Seg.lit "\n\nPrevious context: ",
     Seg.field "context",
     Seg.lit "\n\nProvide a supportive, empathetic response (2-3 sentences). Use active listening techniques and validate their feelings."]
  | .THERAPY_REFLECTION =>
    [Seg.lit "Generate a closing reflection for a therapy session.\n\nSession topics: ",
     Seg.field "topics",
     Seg.lit "\nUser\x27s mood: ",
     Seg.field "mood",
     Seg.lit "\n\nProvide a brief, encouraging reflection (2-3 sentences) that summarizes key insights and offers hope."]
  | .EMOTION_ANALYSIS =>
    [Seg.lit "Analyze the emotional content of this voice recording.\n\nTranscript/Description: ",
     Seg.field "content",
     Seg.lit "\n\nClassify the primary emotion (happy/sad/anxious/calm/stressed/neutral) and provide a brief, supportive response (1-2 sentences)."]
  | .COGNITIVE_INSIGHT =>
    [Seg.lit "Generate an encouraging insight about cognitive game performance.\n\nGame: ",
     Seg.field "game_type",
     Seg.lit "\nTotal plays: ",
     Seg.field "total_plays",
     Seg.lit "\nBest score: ",
     Seg.field "best_score",
     Seg.lit "\nRecent average: ",
     Seg.field "recent_avg",
     Seg.lit "\nPrevious average: ",
     Seg.field "older_avg",
     Seg.lit "\n\nProvide ONE encouraging sentence about their cognitive performance. Focus on progress or consistency. Never mention decline."]
  | .BEHAVIOR_ANALYSIS =>
    [Seg.lit "Analyze digital wellness data and provide insights.\n\nDays tracked: ",
     Seg.field "days",
     Seg.lit "\nAverage screen time: ",
     Seg.field "avg_screen_time",
     Seg.lit " minutes\nTrend: ",
     Seg.field "trend",
     Seg.lit "\nDetected patterns: ",
     Seg.field "detections",
     Seg.lit "\nRisk level: ",
     Seg.field "risk_level",
     Seg.lit "\n\nProvide:\n1. A brief 2-sentence summary\n2. 3 specific, actionable recommendations\n\nFormat as JSON:\n\x7b\"summary\": \"...\", \"recommendations\": [\"...\", \"...\", \"...\"]\x7d"]
  | .MOOD_SUMMARY =>
    [Seg.lit "Summarize mood patterns over time.\n\nMood entries: ",
     Seg.field "mood_data",
     Seg.lit "\nTime period: ",
     Seg.field "days",
     Seg.lit " days\n\nProvide a brief, insightful summary (2-3 sentences) about their emotional patterns and any positive trends."]
  | .SESSION_SUMMARY =>
    [Seg.lit "Summarize a therapy session.\n\nDuration: ",
     Seg.field "duration",
     Seg.lit " minutes\nTopics discussed: ",
     Seg.field "topics",
     Seg.lit "\nUser\x27s final mood: ",
     Seg.field "mood",
     Seg.lit "\n\nProvide a concise summary (2-3 sentences) highlighting key points and progress."]

/-- Renders one segment back to its raw (unformatted) source text: literal
braces reappear doubled and placeholders keep their braces, exactly as they
stand in the Python template string literals. -/
def rawSeg : Seg → String
  | .lit s => String.mk (s.data.flatMap fun c =>
      if c = '\x7b' then ['\x7b', '\x7b']
      else if c = '\x7d' then ['\x7d', '\x7d'] else [c])
  | .field n => String.mk ('\x7b' :: n.data ++ ['\x7d'])

/-- The raw template string for a prompt type, i.e. `templates[prompt_type]`
before any `.format` call. -/
def templateString (pt : PromptType) : String :=
  String.join ((templateSegs pt).map rawSeg)

/-- Models `template.format(**context)`: substitutes each placeholder
left to right and fails with the first missing key, mirroring the `KeyError`
raised by `str.format`. -/
def formatSegs (segs : List Seg) (ctx : List (String × Json)) : Except String String :=
  match segs with
  | [] => Except.ok ""
  | Seg.lit s :: rest =>
    match formatSegs rest ctx with
    | Except.ok t => Except.ok (s ++ t)
    | Except.error e => Except.error e
  | Seg.field n :: rest =>
    match List.lookup n ctx with
    | some v =>
      match formatSegs rest ctx with
      | Except.ok t => Except.ok (pyStr v ++ t)
      | Except.error e => Except.error e
    | none => Except.error n

/-- True when every placeholder of the kind's template is bound in the
context, i.e. when `template.format(**context)` would not raise. -/
def hasRequiredFields (pt : PromptType) (ctx : List (String × Json)) : Bool :=
  match formatSegs (templateSegs pt) ctx with
  | Except.ok _ => true
  | Except.error _ => false

/-- `GeminiService._build_prompt`: renders the template; on a missing context
key the `KeyError` is caught, an error is logged, and the RAW template string
is returned instead (no exception reaches the caller). -/
def buildPrompt (pt : PromptType) (ctx : List (String × Json)) : String :=
  match formatSegs (templateSegs pt) ctx with
  | Except.ok s => s
  | Except.error _ => templateString pt

/-- Python `str.strip()` over the character list: drops Unicode whitespace
from both ends. -/
def trimChars (l : List Char) : List Char :=
  ((l.dropWhile Char.isWhitespace).reverse.dropWhile Char.isWhitespace).reverse

def pyStrip (s : String) : String := String.mk (trimChars s.data)

/-- Python `str[:n]` truncation. -/
def strTake (s : String) (n : Nat) : String := String.mk (s.data.take n)

/-- Whether `pat` is a prefix of `l` (character lists). -/
def charsPre : List Char → List Char → Bool
  | [], _ => true
  | _ :: _, [] => false
  | c :: cs, d :: ds => c = d && charsPre cs ds

/-- Whether `pat` occurs contiguously inside `hay` (Python `pat in hay`). -/
def charsInfix (pat hay : List Char) : Bool :=
  match hay with
  | [] => pat.isEmpty
  | _ :: rest => charsPre pat hay || charsInfix pat rest

/-- Case-insensitive substring test: Python `pat.lower() in text.lower()`
(for the denylist the source lowers the pattern at match time; the fixed
rate-limit and emotion keywords are already lowercase, on which lowering is
the identity). -/
def containsLower (text pat : String) : Bool :=
  charsInfix (pat.data.map Char.toLower) (text.data.map Char.toLower)

/-- The fixed denylist `error_patterns` of `GeminiService._validate_response`
(the source lowercases each pattern before the substring test; the lowered
forms are applied in `validateResponse`). -/
def errorPatterns : List String :=
  ["I cannot", "I am unable", "Error:", "Exception:", "as an AI", "I apologize, but"]

/-- The `emotion_keywords` vocabulary used for the kind-specific check of
emotion-analysis responses. -/
def emotionKeywords : List String :=
  ["feel", "emotion", "mood", "happy", "sad", "anxious", "calm"]

/-- `GeminiService._validate_response`: rejects empty or whitespace-only
text, text shorter than 10 characters, text containing any denylisted
phrase (case-insensitively), and emotion-analysis text with no
affect-related keyword. -/
def validateResponse (response : String) (pt : PromptType) : Bool :=
  if response.data.isEmpty || (trimChars response.data).isEmpty then false
  else if response.data.length < 10 then false
  else if errorPatterns.any (fun pat => containsLower response pat) then false
  else if pt = PromptType.EMOTION_ANALYSIS
          && !(emotionKeywords.any (fun kw => containsLower response kw)) then false
  else true

/-- `GeminiService._get_fallback_response`: the static per-kind fallback
dictionary. The source's `fallbacks.get(.., default)` default string is
unreachable because `PromptType` is a closed enumeration covered by the
dictionary. -/
def getFallbackResponse (pt : PromptType) (_ctx : List (String × Json)) : String :=
  match pt with
  | .THERAPY_RESPONSE => "I hear you. It\x27s important to acknowledge what you\x27re feeling. Take a moment to breathe and know that it\x27s okay to feel this way."
  | .THERAPY_REFLECTION => "Thank you for sharing today. Remember that healing is a journey, and every step forward matters. Take care of yourself."
  | .EMOTION_ANALYSIS => "Your emotions are valid. It\x27s natural to experience a range of feelings. Consider taking some time for self-care."
  | .COGNITIVE_INSIGHT => "You\x27re making progress! Keep practicing these exercises to maintain your cognitive health."
  | .BEHAVIOR_ANALYSIS => "Consider setting healthy boundaries with technology. Small changes can make a big difference in your digital wellness."
  | .MOOD_SUMMARY => "Your emotional journey is unique. Continue tracking your moods to better understand your patterns."
  | .SESSION_SUMMARY => "This session covered important topics. Reflect on what resonated with you and consider journaling about it."

/-- Python `text.split(chr(10))` over the character list. -/
def splitOnNl : List Char → List (List Char)
  | [] => [[]]
  | c :: rest =>
    match splitOnNl rest with
    | [] => [[]]
    | cur :: done =>
      if c = '\n' then [] :: cur :: done else (c :: cur) :: done

/-- Python `chr(10).join(..)` over character lists. -/
def joinNl : List (List Char) → List Char
  | [] => []
  | [l] => l
  | l :: ls => l ++ '\n' :: joinNl ls

/-- The markdown code-fence cleanup applied to the raw model text in
`generate_response` (after `.strip()`): on a leading fence, drops the first
and last lines, then a leading `json` tag with a re-strip. -/
def cleanResponse (text : String) : String :=
  if charsPre "```".data text.data then
    let t := joinNl (((splitOnNl text.data).drop 1).dropLast)
    if charsPre "json".data t then String.mk (trimChars (t.drop 4)) else String.mk t
  else text

/-- Cache settings and rate-limit settings fixed in `GeminiService.__init__`. -/
def cacheTtlHours : Nat := 24

def enableCaching : Bool := true

def maxRetries : Nat := 3

def retryDelay : Nat := 2

/-- One row of the `ai_cache` table written by `GeminiService._cache_response`
(`created_at` is the row timestamp, in seconds; the source compares ISO-8601
strings, which order chronologically). -/
structure AiCacheRow where
  cacheKey : String
  promptType : PromptType
  response : String
  createdAt : Nat

/-- One row of the `ai_logs` table written by `GeminiService._log_interaction`. -/
structure LogRow where
  promptType : PromptType
  prompt : String
  response : Option String
  success : Bool
  error : Option String
  userId : Option String

/-- The externally stored mutable state touched by `GeminiService`: the
`ai_cache` table and the `ai_logs` table, each modelled as a list of rows in
insertion order (the order in which an unordered select returns them). -/
structure GeminiState where
  aiCache : List AiCacheRow
  logs : List LogRow

/-- `GeminiService._get_cached_response`: selects rows with the given key and
`created_at` at or after `now` minus the TTL window, returns the first row's
response; never modifies the store. -/
def getCachedResponse (key : String) (now : Nat) (cache : List AiCacheRow) : Option String :=
  if enableCaching then
    (cache.find? fun r => r.cacheKey == key && now - cacheTtlHours * 3600 ≤ r.createdAt).map
      (fun r => r.response)
  else none

/-- `GeminiService._cache_response`: a plain `insert` — appends a new row,
regardless of whether a row with the same key already exists. -/
def cacheResponse (key response : String) (pt : PromptType) (now : Nat)
    (st : GeminiState) : GeminiState :=
  if enableCaching then
    { st with aiCache := st.aiCache ++ [⟨key, pt, response, now⟩] }
  else st

/-- `GeminiService._log_interaction`: appends one row to `ai_logs`, truncating
the prompt to 1000 and the response to 2000 characters; a falsy response
(`None` or the empty string) is stored as null. -/
def logInteraction (pt : PromptType) (prompt : String) (response : Option String)
    (success : Bool) (error : Option String) (userId : Option String)
    (st : GeminiState) : GeminiState :=
  let respField := match response with
    | some r => if r.data.isEmpty then none else some (strTake r 2000)
    | none => none
  { st with logs := st.logs ++ [⟨pt, strTake prompt 1000, respField, success, error, userId⟩] }

/-- Outcome of one call to the external generation service: the raw text of
`response.text`, or a raised exception with its message string. -/
inductive Outcome where
  | ok (raw : String)
  | exn (msg : String)

/-- The rate-limit classification applied to a caught exception:
`'rate limit' in str(e).lower() or 'quota' in str(e).lower()`. -/
def isRateLimitError (msg : String) : Bool :=
  containsLower msg "rate limit" || containsLower msg "quota"

/-- Observable actions of one `generate_response` call, in order. -/
inductive Event where
  | cacheLookup (key : String)
  | render (prompt : String)
  | upstreamCall (attempt : Nat)
  | sleep (seconds : Nat)
  | cacheWrite (key : String) (response : String)

/-- The retry loop of `generate_response` (`for attempt in range(max_retries)`),
driven by `oracle`, which gives the upstream service's behavior on each
attempt. A valid response is cached and logged and ends the loop; a
validation failure is silently retried; an exception is logged and retried,
with a backoff sleep of `retry_delay * (attempt + 1)` seconds inserted when
the message matches the rate-limit classification and attempts remain. -/
def runAttempts (oracle : Nat → Outcome) (pt : PromptType) (prompt key : String)
    (userId : Option String) (now : Nat) :
    Nat → Nat → GeminiState → Option String × GeminiState × List Event
  | 0, _, st => (none, st, [])
  | rem + 1, attempt, st =>
    match oracle attempt with
    | Outcome.ok raw =>
      let text := cleanResponse (pyStrip raw)
      if validateResponse text pt then
        (some text,
         logInteraction pt prompt (some text) true none userId
           (cacheResponse key text pt now st),
         [Event.upstreamCall attempt, Event.cacheWrite key text])
      else
        let r := runAttempts oracle pt prompt key userId now rem (attempt + 1) st
        (r.1, r.2.1, Event.upstreamCall attempt :: r.2.2)
    | Outcome.exn msg =>
      let st1 := logInteraction pt prompt none false (some msg) userId st
      let sleepEvs := if isRateLimitError msg ∧ attempt + 1 < maxRetries
        then [Event.sleep (retryDelay * (attempt + 1))] else []
      let r := runAttempts oracle pt prompt key userId now rem (attempt + 1) st1
      (r.1, r.2.1, Event.upstreamCall attempt :: (sleepEvs ++ r.2.2))

/-- Python truthiness of an optional string (`if cached:`): `None` and the
empty string are falsy. -/
def truthy : Option String → Option String
  | some c => if c.data.isEmpty then none else some c
  | none => none

/-- `GeminiService.generate_response`: compute the cache key; when `use_cache`
is set and the lookup yields a truthy value, return it at once; otherwise
build the prompt, run the bounded retry loop, and on exhaustion log and
return the static fallback. Returns the response text, the final state of
the external tables, and the ordered list of observable events. -/
def generateResponse (oracle : Nat → Outcome) (pt : PromptType)
    (ctx : List (String × Json)) (userId : Option String) (useCache : Bool)
    (now : Nat) (st : GeminiState) : String × GeminiState × List Event :=
  let key := getCacheKey pt ctx
  let lookupEvs := if useCache then [Event.cacheLookup key] else []
  match if useCache then truthy (getCachedResponse key now st.aiCache) else none with
  | some c => (c, st, lookupEvs)
  | none =>
    let prompt := buildPrompt pt ctx
    let r := runAttempts oracle pt prompt key userId now maxRetries 0 st
    match r.1 with
    | some text => (text, r.2.1, lookupEvs ++ Event.render prompt :: r.2.2)
    | none =>
      let fb := getFallbackResponse pt ctx
      (fb,
       logInteraction pt prompt (some fb) false (some "Using fallback response") userId r.2.1,
       lookupEvs ++ Event.render prompt :: r.2.2)

/-- One row of the `response_cache` table used by `CacheService`. The `value`
column holds the JSON-serialized value; `expires_at` is in seconds. -/
structure RcRow where
  key : String
  value : String
  expiresAt : Nat

/-- `CacheService.delete`: removes every row with the given key. -/
def cacheDelete (key : String) (store : List RcRow) : List RcRow :=
  store.filter fun r => !(r.key == key)

/-- `CacheService.get`: point lookup by key; no row gives a miss; a first
row whose `expires_at` lies strictly in the past is deleted (lazy expiry) and
gives a miss; otherwise the stored value is returned (the source parses the
JSON string back into a value; the serialized form is returned here).
Returns the result together with the post-lookup store. -/
def cacheGet (key : String) (now : Nat) (store : List RcRow) :
    Option String × List RcRow :=
  match store.find? (fun r => r.key == key) with
  | none => (none, store)
  | some r =>
    if r.expiresAt < now then (none, cacheDelete key store)
    else (some r.value, store)

/-- `CacheService` default TTL (300 seconds). -/
def defaultTtl : Nat := 300

/-- `CacheService.set`: `ttl = ttl or self.default_ttl` (so a zero TTL also
falls back to the default), `expires_at = now + ttl`, then a keyed upsert:
the row with this key is replaced if present, inserted otherwise. -/
def effTtl : Option Nat → Nat
  | some v => if v = 0 then defaultTtl else v
  | none => defaultTtl

def cacheSet (key : String) (value : Json) (ttl : Option Nat) (now : Nat)
    (store : List RcRow) : List RcRow :=
  (store.filter fun r => !(r.key == key)) ++ [⟨key, dumps value, now + effTtl ttl⟩]

mutual

/-- Two JSON values carrying the same data, where each object node may list
its fields in a different order (at any nesting depth). This captures "the
same kind and context fields given in a different order" from the cache-key
idempotence contract. -/
inductive Reorder : Json → Json → Prop where
  | str (s : String) : Reorder (Json.str s) (Json.str s)
  | num (n : Int) : Reorder (Json.num n) (Json.num n)
  | bool (b : Bool) : Reorder (Json.bool b) (Json.bool b)
  | null : Reorder Json.null Json.null
  | arr {xs ys : List Json} : ReorderList xs ys → Reorder (Json.arr xs) (Json.arr ys)
  | obj {fs gs hs : List (String × Json)} :
      ReorderFields fs gs → List.Perm gs hs → Reorder (Json.obj fs) (Json.obj hs)

/-- Pointwise `Reorder` on array elements (arrays are order-significant). -/
inductive ReorderList : List Json → List Json → Prop where
  | nil : ReorderList [] []
  | cons {x y : Json} {xs ys : List Json} :
      Reorder x y → ReorderList xs ys → ReorderList (x :: xs) (y :: ys)

/-- Pointwise `Reorder` on object fields with identical keys. -/
inductive ReorderFields : List (String × Json) → List (String × Json) → Prop where
  | nil : ReorderFields [] []
  | cons {k : String} {v w : Json} {fs gs : List (String × Json)} :
      Reorder v w → ReorderFields fs gs → ReorderFields ((k, v) :: fs) ((k, w) :: gs)

end

mutual

theorem reorder_refl : ∀ (a : Json), Reorder a a
  | .str s => Reorder.str s
  | .num n => Reorder.num n
  | .bool b => Reorder.bool b
  | .null => Reorder.null
  | .arr xs => Reorder.arr (reorderList_refl xs)
  | .obj fs => Reorder.obj (reorderFields_refl fs) (List.Perm.refl fs)

theorem reorderList_refl : ∀ (xs : List Json), ReorderList xs xs
  | [] => ReorderList.nil
  | x :: xs => ReorderList.cons (reorder_refl x) (reorderList_refl xs)

theorem reorderFields_refl : ∀ (fs : List (String × Json)), ReorderFields fs fs
  | [] => ReorderFields.nil
  | (_, v) :: fs => ReorderFields.cons (reorder_refl v) (reorderFields_refl fs)

end

theorem reorderFields_keys : ∀ {fs gs : List (String × Json)}, ReorderFields fs gs →
    fs.map Prod.fst = gs.map Prod.fst
  | [], _, h => by cases h; rfl
  | (_, _) :: _, _, h => by
    cases h with
    | cons hvw hrest => simpa using reorderFields_keys hrest

theorem canonFields_map (fs : List (String × Json)) :
    canonFields fs = fs.map (fun p => (p.1, canon p.2)) := by
  induction fs with
  | nil => rfl
  | cons p fs ih => simp [canonFields, ih]

theorem canonList_map (xs : List Json) : canonList xs = xs.map canon := by
  induction xs with
  | nil => rfl
  | cons x xs ih => simp [canonList, ih]

theorem canonFields_keys (fs : List (String × Json)) :
    (canonFields fs).map Prod.fst = fs.map Prod.fst := by
  rw [canonFields_map, List.map_map]
  rfl

theorem nodupKeysList_mem : ∀ {xs : List Json}, nodupKeysList xs = true →
    ∀ {x : Json}, x ∈ xs → nodupKeysJ x = true
  | [], _, _, hx => absurd hx (List.not_mem_nil _)
  | y :: ys, h, x, hx => by
    rw [nodupKeysList, Bool.and_eq_true] at h
    rcases List.mem_cons.mp hx with rfl | hx2
    · exact h.1
    · exact nodupKeysList_mem h.2 hx2

theorem nodupKeysFields_mem : ∀ {fs : List (String × Json)}, nodupKeysFields fs = true →
    ∀ {k : String} {v : Json}, (k, v) ∈ fs → nodupKeysJ v = true
  | [], _, _, _, hx => absurd hx (List.not_mem_nil _)
  | p :: ps, h, k, v, hx => by
    rw [nodupKeysFields, Bool.and_eq_true] at h
    rcases List.mem_cons.mp hx with rfl | hx2
    · exact h.1
    · exact nodupKeysFields_mem h.2 hx2

theorem canonList_congr : ∀ {xs ys : List Json}, ReorderList xs ys →
    (∀ x ∈ xs, ∀ y, Reorder x y → nodupKeysJ x = true → canon x = canon y) →
    nodupKeysList xs = true → canonList xs = canonList ys
  | [], _, h, _, _ => by cases h; rfl
  | x :: xs, _, h, ih, hn => by
    cases h with
    | cons hxy hrest =>
      rw [nodupKeysList, Bool.and_eq_true] at hn
      have h1 := ih x (List.mem_cons_self x xs) _ hxy hn.1
      have h2 := canonList_congr hrest (fun z hz => ih z (List.mem_cons_of_mem x hz)) hn.2
      simp [canonList, h1, h2]

theorem canonFields_congr : ∀ {fs gs : List (String × Json)}, ReorderFields fs gs →
    (∀ k v, (k, v) ∈ fs → ∀ w, Reorder v w → nodupKeysJ v = true → canon v = canon w) →
    nodupKeysFields fs = true → canonFields fs = canonFields gs
  | [], _, h, _, _ => by cases h; rfl
  | (k, v) :: fs, _, h, ih, hn => by
    cases h with
    | cons hvw hrest =>
      rw [nodupKeysFields, Bool.and_eq_true] at hn
      have h1 := ih k v (List.mem_cons_self _ _) _ hvw hn.1
      have h2 := canonFields_congr hrest
        (fun k2 v2 hm => ih k2 v2 (List.mem_cons_of_mem _ hm)) hn.2
      simp [canonFields, h1, h2]

/-- A key-sorted field list with pairwise distinct keys is strictly sorted. -/
theorem sorted_keyLT_of_keyLE {l : List (String × Json)} (hs : List.Sorted keyLE l)
    (hn : (l.map Prod.fst).Nodup) : List.Sorted keyLT l := by
  have hne : l.Pairwise (fun p q : String × Json => p.1 ≠ q.1) := List.pairwise_map.mp hn
  exact (List.Pairwise.and hs hne).imp (fun h => ⟨h.1, h.2⟩)

/-- Sorting by key identifies any two permutations of a duplicate-free field
list. -/
theorem sortFields_eq_of_perm {X Y : List (String × Json)} (hp : List.Perm X Y)
    (hn : (X.map Prod.fst).Nodup) : sortFields X = sortFields Y := by
  have hnY : (Y.map Prod.fst).Nodup := (hp.map Prod.fst).nodup hn
  have hnX2 : ((sortFields X).map Prod.fst).Nodup :=
    (((List.perm_insertionSort keyLE X).symm).map Prod.fst).nodup hn
  have hnY2 : ((sortFields Y).map Prod.fst).Nodup :=
    (((List.perm_insertionSort keyLE Y).symm).map Prod.fst).nodup hnY
  have hperm : List.Perm (sortFields X) (sortFields Y) :=
    (List.perm_insertionSort keyLE X).trans (hp.trans (List.perm_insertionSort keyLE Y).symm)
  exact List.eq_of_perm_of_sorted hperm
    (sorted_keyLT_of_keyLE (List.sorted_insertionSort keyLE X) hnX2)
    (sorted_keyLT_of_keyLE (List.sorted_insertionSort keyLE Y) hnY2)

/-- Canonicalization is invariant under reordering of object fields, at any
depth, provided keys are duplicate-free (a Python `dict` guarantees this). -/
theorem canon_reorder : ∀ (a b : Json), Reorder a b → nodupKeysJ a = true →
    canon a = canon b
  | _, _, Reorder.str s, _ => rfl
  | _, _, Reorder.num n, _ => rfl
  | _, _, Reorder.bool b, _ => rfl
  | _, _, Reorder.null, _ => rfl
  | Json.arr xs, Json.arr ys, Reorder.arr hxy, hn => by
    have ih : ∀ x ∈ xs, ∀ y, Reorder x y → nodupKeysJ x = true → canon x = canon y :=
      fun x hx y hxy2 hn2 => canon_reorder x y hxy2 hn2
    rw [nodupKeysJ] at hn
    simpa [canon] using canonList_congr hxy ih hn
  | Json.obj fs, Json.obj hs, Reorder.obj hfg hperm, hn => by
    rename_i gs
    have ih : ∀ k v, (k, v) ∈ fs → ∀ w, Reorder v w → nodupKeysJ v = true →
        canon v = canon w :=
      fun k v hkv w hvw hn2 => canon_reorder v w hvw hn2
    rw [nodupKeysJ, Bool.and_eq_true, decide_eq_true_eq] at hn
    have hcf : canonFields fs = canonFields gs := canonFields_congr hfg ih hn.2
    have hkeys : fs.map Prod.fst = gs.map Prod.fst := reorderFields_keys hfg
    have hpermC : List.Perm (canonFields gs) (canonFields hs) := by
      rw [canonFields_map, canonFields_map]
      exact hperm.map _
    have hnC : ((canonFields gs).map Prod.fst).Nodup := by
      rw [canonFields_keys, ← hkeys]
      exact hn.1
    simp only [canon]
    rw [hcf, sortFields_eq_of_perm hpermC hnC]
termination_by a => sizeOf a
decreasing_by
  · have h1 := List.sizeOf_lt_of_mem hx
    simp only [Json.arr.sizeOf_spec]
    omega
  · have h1 := List.sizeOf_lt_of_mem hkv
    simp only [Prod.mk.sizeOf_spec] at h1
    simp only [Json.obj.sizeOf_spec]
    omega

/-- Number of upstream generation calls recorded in an event trace. -/
def countUpstream (evs : List Event) : Nat :=
  evs.countP fun e => match e with
    | Event.upstreamCall _ => true
    | _ => false

/-- Whether attempt `i` of the oracle fails: either the call raises, or the
returned text is rejected by the validator. -/
def attemptFails (oracle : Nat → Outcome) (pt : PromptType) (i : Nat) : Bool :=
  match oracle i with
  | Outcome.ok raw => !(validateResponse (cleanResponse (pyStrip raw)) pt)
  | Outcome.exn _ => true

/-- Whether a `generate_response` call reaches the generation loop: either the
cache is bypassed, or the lookup yields nothing truthy. -/
def noCacheHit (useCache : Bool) (key : String) (now : Nat)
    (cache : List AiCacheRow) : Bool :=
  !useCache || (truthy (getCachedResponse key now cache)).isNone

theorem logInteraction_aiCache (pt : PromptType) (prompt : String) (r : Option String)
    (s : Bool) (e uid : Option String) (st : GeminiState) :
    (logInteraction pt prompt r s e uid st).aiCache = st.aiCache := rfl

theorem runAttempts_countUpstream (oracle : Nat → Outcome) (pt : PromptType)
    (prompt key : String) (uid : Option String) (now : Nat) :
    ∀ (rem attempt : Nat) (st : GeminiState),
      countUpstream (runAttempts oracle pt prompt key uid now rem attempt st).2.2 ≤ rem := by
  intro rem
  induction rem with
  | zero => intro attempt st; simp [runAttempts, countUpstream]
  | succ n ih =>
    intro attempt st
    rw [runAttempts]
    match h : oracle attempt with
    | Outcome.ok raw =>
      by_cases hv : validateResponse (cleanResponse (pyStrip raw)) pt = true
      · simp [hv, countUpstream, List.countP_cons]
      · simp only [Bool.not_eq_true] at hv
        have := ih (attempt + 1) st
        simp only [countUpstream] at this ⊢
        simp [hv, List.countP_cons]
        omega
    | Outcome.exn msg =>
      by_cases hr : isRateLimitError msg ∧ attempt + 1 < maxRetries
      · simp only [hr, if_true, countUpstream, List.countP_cons, List.countP_append]
        have := ih (attempt + 1) (logInteraction pt prompt none false (some msg) uid st)
        simp only [countUpstream] at this
        simp
        omega
      · simp only [hr, if_false, countUpstream, List.countP_cons, List.countP_append]
        have := ih (attempt + 1) (logInteraction pt prompt none false (some msg) uid st)
        simp only [countUpstream] at this
        simp
        omega

theorem runAttempts_none_of_fails (oracle : Nat → Outcome) (pt : PromptType)
    (prompt key : String) (uid : Option String) (now : Nat) :
    ∀ (rem attempt : Nat) (st : GeminiState),
      (∀ i, attempt ≤ i → i < attempt + rem → attemptFails oracle pt i = true) →
      (runAttempts oracle pt prompt key uid now rem attempt st).1 = none := by
  intro rem
  induction rem with
  | zero => intro attempt st _; rfl
  | succ n ih =>
    intro attempt st hfail
    have hthis : attemptFails oracle pt attempt = true :=
      hfail attempt (le_refl _) (by omega)
    rw [runAttempts]
    match h : oracle attempt with
    | Outcome.ok raw =>
      rw [attemptFails, h, Bool.not_eq_true'] at hthis
      simp only [hthis, if_false]
      exact ih (attempt + 1) st (fun i h1 h2 => hfail i (by omega) (by omega))
    | Outcome.exn msg =>
      simp only []
      exact ih (attempt + 1) _ (fun i h1 h2 => hfail i (by omega) (by omega))

theorem runAttempts_success_at (oracle : Nat → Outcome) (pt : PromptType)
    (prompt key : String) (uid : Option String) (now : Nat) (k : Nat) (raw : String)
    (hk : oracle k = Outcome.ok raw)
    (hv : validateResponse (cleanResponse (pyStrip raw)) pt = true) :
    ∀ (rem attempt : Nat) (st : GeminiState),
      (∀ i, attempt ≤ i → i < k → attemptFails oracle pt i = true) →
      attempt ≤ k → k < attempt + rem →
      (runAttempts oracle pt prompt key uid now rem attempt st).1
        = some (cleanResponse (pyStrip raw)) := by
  intro rem
  induction rem with
  | zero => intro attempt st _ h1 h2; omega
  | succ n ih =>
    intro attempt st hfail h1 h2
    by_cases heq : attempt = k
    · subst heq
      rw [runAttempts, hk]
      simp [hv]
    · have hlt : attempt < k := by omega
      have hthis : attemptFails oracle pt attempt = true := hfail attempt (le_refl _) hlt
      rw [runAttempts]
      match h : oracle attempt with
      | Outcome.ok raw2 =>
        rw [attemptFails, h, Bool.not_eq_true'] at hthis
        simp only [hthis, if_false]
        exact ih (attempt + 1) st (fun i ha hb => hfail i (by omega) hb) (by omega) (by omega)
      | Outcome.exn msg =>
        simp only []
        exact ih (attempt + 1) _ (fun i ha hb => hfail i (by omega) hb) (by omega) (by omega)

theorem runAttempts_starts_with_call (oracle : Nat → Outcome) (pt : PromptType)
    (prompt key : String) (uid : Option String) (now : Nat) (rem attempt : Nat)
    (st : GeminiState) :
    ∃ tail, (runAttempts oracle pt prompt key uid now (rem + 1) attempt st).2.2
      = Event.upstreamCall attempt :: tail := by
  rw [runAttempts]
  match h : oracle attempt with
  | Outcome.ok raw =>
    by_cases hv : validateResponse (cleanResponse (pyStrip raw)) pt = true
    · refine ⟨[Event.cacheWrite key (cleanResponse (pyStrip raw))], ?_⟩
      simp [hv]
    · simp only [Bool.not_eq_true] at hv
      refine ⟨(runAttempts oracle pt prompt key uid now rem (attempt + 1) st).2.2, ?_⟩
      simp [hv]
  | Outcome.exn msg => exact ⟨_, rfl⟩

theorem validateResponse_not_empty {t : String} {pt : PromptType}
    (h : validateResponse t pt = true) : t.data.isEmpty = false := by
  cases hE : t.data.isEmpty with
  | false => rfl
  | true => rw [validateResponse, hE] at h; simp at h

/-- C4: for all (kind, context) pairs the cache key is a deterministic
function of the kind and the canonicalized context: listing the context's
fields (including nested mapping fields) in any other order yields the same
key, both for `GeminiService._get_cache_key` and for the kwargs of
`CacheService._generate_cache_key`. Stability across repeated calls with the
same arguments is definitional, the embedding being a pure function. The
duplicate-free-keys hypotheses hold for every value originating from Python
dicts. -/
theorem cacheKey_invariant_under_field_order (pt : PromptType) (pre : String)
    (args : List Json) (ctx1 ctx2 : List (String × Json))
    (h : Reorder (Json.obj ctx1) (Json.obj ctx2))
    (hn : nodupKeysJ (Json.obj ctx1) = true)
    (hargs : nodupKeysList args = true) :
    getCacheKey pt ctx1 = getCacheKey pt ctx2
    ∧ generateCacheKey pre args ctx1 = generateCacheKey pre args ctx2 := by
  have hn0 := hn
  rw [nodupKeysJ, Bool.and_eq_true, decide_eq_true_eq] at hn0
  constructor
  · have h1 : Reorder
        (Json.obj [("type", Json.str pt.value), ("context", Json.obj ctx1)])
        (Json.obj [("type", Json.str pt.value), ("context", Json.obj ctx2)]) :=
      Reorder.obj
        (ReorderFields.cons (Reorder.str _) (ReorderFields.cons h ReorderFields.nil))
        (List.Perm.refl _)
    have hn1 : nodupKeysJ
        (Json.obj [("type", Json.str pt.value), ("context", Json.obj ctx1)]) = true := by
      simp [nodupKeysJ, nodupKeysFields]
      exact ⟨hn0.1, hn0.2⟩
    unfold getCacheKey
    rw [canon_reorder _ _ h1 hn1]
  · have h2 : Reorder
        (Json.obj [("prefix", Json.str pre), ("args", Json.arr args),
          ("kwargs", Json.obj ctx1)])
        (Json.obj [("prefix", Json.str pre), ("args", Json.arr args),
          ("kwargs", Json.obj ctx2)]) :=
      Reorder.obj
        (ReorderFields.cons (Reorder.str _)
          (ReorderFields.cons (reorder_refl (Json.arr args))
            (ReorderFields.cons h ReorderFields.nil)))
        (List.Perm.refl _)
    have hn2 : nodupKeysJ
        (Json.obj [("prefix", Json.str pre), ("args", Json.arr args),
          ("kwargs", Json.obj ctx1)]) = true := by
      simp [nodupKeysJ, nodupKeysFields, hargs]
      exact ⟨hn0.1, hn0.2⟩
    unfold generateCacheKey
    rw [canon_reorder _ _ h2 hn2]

/-- Concrete context for the C4 witness, with a nested mapping field. -/
def ctxA : List (String × Json) :=
  [("a", Json.num 1), ("b", Json.obj [("x", Json.str "u"), ("y", Json.num 2)])]

/-- The same fields as `ctxA`, permuted at both nesting levels. -/
def ctxB : List (String × Json) :=
  [("b", Json.obj [("y", Json.num 2), ("x", Json.str "u")]), ("a", Json.num 1)]

/-- Witness for C4 at a concrete nested context and its permutation. -/
theorem cacheKey_invariant_witness :
    nodupKeysJ (Json.obj ctxA) = true
    ∧ nodupKeysList [Json.str "u1"] = true
    ∧ (getCacheKey PromptType.THERAPY_RESPONSE ctxA
        = getCacheKey PromptType.THERAPY_RESPONSE ctxB
      ∧ generateCacheKey "user" [Json.str "u1"] ctxA
        = generateCacheKey "user" [Json.str "u1"] ctxB) := by
  have hin : Reorder (Json.obj [("x", Json.str "u"), ("y", Json.num 2)])
      (Json.obj [("y", Json.num 2), ("x", Json.str "u")]) :=
    Reorder.obj (reorderFields_refl _)
      (List.Perm.swap ("y", Json.num 2) ("x", Json.str "u") [])
  have h : Reorder (Json.obj ctxA) (Json.obj ctxB) :=
    Reorder.obj
      (ReorderFields.cons (Reorder.num 1) (ReorderFields.cons hin ReorderFields.nil))
      (List.Perm.swap ("b", Json.obj [("y", Json.num 2), ("x", Json.str "u")])
        ("a", Json.num 1) [])
  exact ⟨by decide, by decide,
    cacheKey_invariant_under_field_order PromptType.THERAPY_RESPONSE "user"
      [Json.str "u1"] ctxA ctxB h (by decide) (by decide)⟩

/-- C8: the validator rejects any text containing a denylisted phrase
(case-insensitive substring match), for every kind and regardless of the
text's length. -/
theorem validator_rejects_denylisted (response : String) (pt : PromptType)
    (h : errorPatterns.any (fun pat => containsLower response pat) = true) :
    validateResponse response pt = false := by
  simp [validateResponse, h]

/-- Witness for C8: a long, otherwise plausible text containing "as an AI" is
rejected. -/
theorem validator_rejects_denylisted_witness :
    errorPatterns.any (fun pat =>
      containsLower "Well, as an AI I think this is a long and valid-looking response."
        pat) = true
    ∧ validateResponse
        "Well, as an AI I think this is a long and valid-looking response."
        PromptType.THERAPY_RESPONSE = false :=
  ⟨by decide, validator_rejects_denylisted _ _ (by decide)⟩

/-- C5: with caching on, a truthy unexpired cache entry makes `generate`
return the cached text immediately: the final state is unchanged (no cache
write, no log) and the only event is the cache lookup — no render and no
upstream call. The hypothesis `c.isEmpty = false` reflects that a cache
entry is only ever written with validated (hence nonempty) text. -/
theorem cache_hit_bypasses_generation (oracle : Nat → Outcome) (pt : PromptType)
    (ctx : List (String × Json)) (uid : Option String) (now : Nat) (st : GeminiState)
    (c : String) (h : getCachedResponse (getCacheKey pt ctx) now st.aiCache = some c)
    (hc : c.data ≠ []) :
    generateResponse oracle pt ctx uid true now st
      = (c, st, [Event.cacheLookup (getCacheKey pt ctx)]) := by
  unfold generateResponse
  simp [h, truthy, hc]

/-- Concrete context for the C5 witness. -/
def c5Ctx : List (String × Json) := [("message", Json.str "hi"), ("context", Json.str "none")]

/-- The cache entry for the C5 witness, stored under the computed key. -/
def c5Row : AiCacheRow :=
  ⟨getCacheKey PromptType.THERAPY_RESPONSE c5Ctx, PromptType.THERAPY_RESPONSE,
    "A cached supportive reply.", 500000⟩

/-- Witness for C5 at a concrete state holding a fresh entry. -/
theorem cache_hit_bypasses_generation_witness :
    getCachedResponse (getCacheKey PromptType.THERAPY_RESPONSE c5Ctx) 500000
      (GeminiState.mk [c5Row] []).aiCache = some "A cached supportive reply."
    ∧ generateResponse (fun _ => Outcome.exn "never called") PromptType.THERAPY_RESPONSE
        c5Ctx none true 500000 (GeminiState.mk [c5Row] [])
      = ("A cached supportive reply.", GeminiState.mk [c5Row] [],
         [Event.cacheLookup (getCacheKey PromptType.THERAPY_RESPONSE c5Ctx)]) :=
  ⟨by rfl,
   cache_hit_bypasses_generation (fun _ => Outcome.exn "never called")
     PromptType.THERAPY_RESPONSE c5Ctx none 500000 (GeminiState.mk [c5Row] [])
     "A cached supportive reply." (by rfl) (by decide)⟩

/-- The per-kind fallback text is never the empty string. -/
theorem fallback_not_empty (pt : PromptType) (ctx : List (String × Json)) :
    (getFallbackResponse pt ctx).data.isEmpty = false := by
  cases pt <;> rfl

/-- C2: with all required fields present, when every one of the `maxRetries`
attempts either raises or returns text the validator rejects, `generate`
returns exactly the static per-kind fallback string (no upstream failure is
propagated — the embedding is a total function whose only outcomes are the
cached text, a validated response, or this fallback), and the appended log
row records the degraded outcome. -/
theorem exhausted_attempts_return_fallback (oracle : Nat → Outcome) (pt : PromptType)
    (ctx : List (String × Json)) (uid : Option String) (useCache : Bool) (now : Nat)
    (st : GeminiState)
    (_hreq : hasRequiredFields pt ctx = true)
    (hmiss : noCacheHit useCache (getCacheKey pt ctx) now st.aiCache = true)
    (hfail : ∀ i, i < maxRetries → attemptFails oracle pt i = true) :
    (generateResponse oracle pt ctx uid useCache now st).1 = getFallbackResponse pt ctx
    ∧ ∃ pre, (generateResponse oracle pt ctx uid useCache now st).2.1.logs
        = pre ++ [⟨pt, strTake (buildPrompt pt ctx) 1000,
            some (strTake (getFallbackResponse pt ctx) 2000), false,
            some "Using fallback response", uid⟩] := by
  have hscrut : (if useCache then
      truthy (getCachedResponse (getCacheKey pt ctx) now st.aiCache) else none) = none := by
    cases useCache with
    | false => rfl
    | true =>
      rw [noCacheHit] at hmiss
      simp only [Bool.not_true, Bool.false_or] at hmiss
      simpa using hmiss
  have hrun := runAttempts_none_of_fails oracle pt (buildPrompt pt ctx)
    (getCacheKey pt ctx) uid now maxRetries 0 st
    (fun i _ h2 => hfail i (by omega))
  unfold generateResponse
  simp only [hscrut, hrun, logInteraction, fallback_not_empty, Bool.false_eq_true,
    if_false]
  exact ⟨trivial, _, rfl⟩

/-- Oracle for the C2 witness: every attempt raises. -/
def c2Oracle : Nat → Outcome := fun _ => Outcome.exn "service unavailable"

/-- Witness for C2: three raising attempts on a mood-summary request yield
that kind's fallback string. -/
theorem exhausted_attempts_return_fallback_witness :
    hasRequiredFields PromptType.MOOD_SUMMARY
      [("mood_data", Json.str "calm"), ("days", Json.num 7)] = true
    ∧ (generateResponse c2Oracle PromptType.MOOD_SUMMARY
        [("mood_data", Json.str "calm"), ("days", Json.num 7)] none false 1000
        (GeminiState.mk [] [])).1
      = getFallbackResponse PromptType.MOOD_SUMMARY
          [("mood_data", Json.str "calm"), ("days", Json.num 7)] :=
  ⟨by rfl,
   (exhausted_attempts_return_fallback c2Oracle PromptType.MOOD_SUMMARY
     [("mood_data", Json.str "calm"), ("days", Json.num 7)] none false 1000
     (GeminiState.mk [] []) (by rfl) (by rfl) (fun i _ => by rfl)).1⟩

theorem countUpstream_wrapper (useCache : Bool) (key prompt : String)
    (tail : List Event) :
    countUpstream ((if useCache then [Event.cacheLookup key] else [])
      ++ Event.render prompt :: tail) = countUpstream tail := by
  cases useCache <;>
    simp [countUpstream, List.countP_cons, List.countP_append]

/-- C3: every call makes at most `maxRetries` (= 3) upstream attempts; two
failures followed by a validating success on the third attempt return that
success's cleaned text; three consecutive failures end in the per-kind
fallback — there is never a fourth attempt. -/
theorem bounded_retries (oracle : Nat → Outcome) (pt : PromptType)
    (ctx : List (String × Json)) (uid : Option String) (useCache : Bool) (now : Nat)
    (st : GeminiState) :
    countUpstream (generateResponse oracle pt ctx uid useCache now st).2.2 ≤ maxRetries
    ∧ (∀ raw, noCacheHit useCache (getCacheKey pt ctx) now st.aiCache = true →
        attemptFails oracle pt 0 = true → attemptFails oracle pt 1 = true →
        oracle 2 = Outcome.ok raw →
        validateResponse (cleanResponse (pyStrip raw)) pt = true →
        (generateResponse oracle pt ctx uid useCache now st).1 = cleanResponse (pyStrip raw))
    ∧ (noCacheHit useCache (getCacheKey pt ctx) now st.aiCache = true →
        (∀ i, i < maxRetries → attemptFails oracle pt i = true) →
        (generateResponse oracle pt ctx uid useCache now st).1
          = getFallbackResponse pt ctx) := by
  refine ⟨?_, ?_, ?_⟩
  · unfold generateResponse
    cases hs : (if useCache then
        truthy (getCachedResponse (getCacheKey pt ctx) now st.aiCache) else none) with
    | some c =>
      simp only [hs]
      cases useCache <;> simp [countUpstream, maxRetries]
    | none =>
      simp only [hs]
      have hcount := runAttempts_countUpstream oracle pt (buildPrompt pt ctx)
        (getCacheKey pt ctx) uid now maxRetries 0 st
      cases hr : (runAttempts oracle pt (buildPrompt pt ctx) (getCacheKey pt ctx)
          uid now maxRetries 0 st).1 with
      | some text => simp only [hr, countUpstream_wrapper]; exact hcount
      | none => simp only [hr, countUpstream_wrapper]; exact hcount
  · intro raw hmiss h0 h1 h2 hv
    have hscrut : (if useCache then
        truthy (getCachedResponse (getCacheKey pt ctx) now st.aiCache) else none) = none := by
      cases useCache with
      | false => rfl
      | true =>
        rw [noCacheHit] at hmiss
        simp only [Bool.not_true, Bool.false_or] at hmiss
        simpa using hmiss
    have hrun := runAttempts_success_at oracle pt (buildPrompt pt ctx)
      (getCacheKey pt ctx) uid now 2 raw h2 hv maxRetries 0 st
      (fun i _ hilt => by
        have : i = 0 ∨ i = 1 := by omega
        rcases this with rfl | rfl
        · exact h0
        · exact h1)
      (by omega) (by simp [maxRetries])
    unfold generateResponse
    simp only [hscrut, hrun]
  · intro hmiss hfail
    have hscrut : (if useCache then
        truthy (getCachedResponse (getCacheKey pt ctx) now st.aiCache) else none) = none := by
      cases useCache with
      | false => rfl
      | true =>
        rw [noCacheHit] at hmiss
        simp only [Bool.not_true, Bool.false_or] at hmiss
        simpa using hmiss
    have hrun := runAttempts_none_of_fails oracle pt (buildPrompt pt ctx)
      (getCacheKey pt ctx) uid now maxRetries 0 st
      (fun i _ h2 => hfail i (by omega))
    unfold generateResponse
    simp only [hscrut, hrun]

/-- Oracle for the C3 witness: two rate-limit failures, then a valid reply. -/
def c3Oracle : Nat → Outcome := fun i =>
  if i = 2 then Outcome.ok "A fine long response indeed." else Outcome.exn "rate limit reached"

/-- Witness for C3: the third attempt's text is returned and at most three
upstream calls happen. -/
theorem bounded_retries_witness :
    countUpstream (generateResponse c3Oracle PromptType.THERAPY_REFLECTION
      [("topics", Json.str "sleep"), ("mood", Json.str "calm")] none false 1000
      (GeminiState.mk [] [])).2.2 ≤ maxRetries
    ∧ (generateResponse c3Oracle PromptType.THERAPY_REFLECTION
        [("topics", Json.str "sleep"), ("mood", Json.str "calm")] none false 1000
        (GeminiState.mk [] [])).1
      = cleanResponse (pyStrip "A fine long response indeed.") :=
  ⟨(bounded_retries c3Oracle PromptType.THERAPY_REFLECTION
      [("topics", Json.str "sleep"), ("mood", Json.str "calm")] none false 1000
      (GeminiState.mk [] [])).1,
   (bounded_retries c3Oracle PromptType.THERAPY_REFLECTION
      [("topics", Json.str "sleep"), ("mood", Json.str "calm")] none false 1000
      (GeminiState.mk [] [])).2.1 "A fine long response indeed."
     (by rfl) (by rfl) (by rfl) (by rfl) (by rfl)⟩

theorem generate_noCache_events (oracle : Nat → Outcome) (pt : PromptType)
    (ctx : List (String × Json)) (uid : Option String) (now : Nat) (st : GeminiState) :
    (generateResponse oracle pt ctx uid false now st).2.2
      = Event.render (buildPrompt pt ctx) ::
        (runAttempts oracle pt (buildPrompt pt ctx) (getCacheKey pt ctx)
          uid now maxRetries 0 st).2.2 := by
  unfold generateResponse
  cases hr : (runAttempts oracle pt (buildPrompt pt ctx) (getCacheKey pt ctx)
      uid now maxRetries 0 st).1 <;> simp [hr]

/-- C1 amended: a context missing a required template field does NOT raise:
`_build_prompt` catches the `KeyError`, logs it, and returns the RAW template
string, and `generate_response` proceeds to render and to call the upstream
service with that unrendered template exactly as on the happy path. No
`TemplateFieldMissing`/CallerError exists in the code. -/
theorem missing_field_degrades_not_raises (pt : PromptType) (ctx : List (String × Json))
    (h : hasRequiredFields pt ctx = false) (oracle : Nat → Outcome) (uid : Option String)
    (now : Nat) (st : GeminiState) :
    buildPrompt pt ctx = templateString pt
    ∧ Event.render (templateString pt) ∈ (generateResponse oracle pt ctx uid false now st).2.2
    ∧ Event.upstreamCall 0 ∈ (generateResponse oracle pt ctx uid false now st).2.2 := by
  have hbp : buildPrompt pt ctx = templateString pt := by
    unfold buildPrompt
    unfold hasRequiredFields at h
    cases hf : formatSegs (templateSegs pt) ctx with
    | ok s => rw [hf] at h; simp at h
    | error e => rfl
  obtain ⟨tail, htail⟩ := runAttempts_starts_with_call oracle pt (buildPrompt pt ctx)
    (getCacheKey pt ctx) uid now 2 0 st
  have hevs := generate_noCache_events oracle pt ctx uid now st
  rw [show maxRetries = 2 + 1 from rfl] at hevs
  rw [htail] at hevs
  refine ⟨hbp, ?_, ?_⟩
  · rw [hevs, hbp]; exact List.mem_cons_self _ _
  · rw [hevs]; exact List.mem_cons_of_mem _ (List.mem_cons_self _ _)

/-- Witness for C1 (amended) at the concrete empty context. -/
theorem missing_field_degrades_witness :
    hasRequiredFields PromptType.THERAPY_RESPONSE [] = false
    ∧ (buildPrompt PromptType.THERAPY_RESPONSE []
        = templateString PromptType.THERAPY_RESPONSE
      ∧ Event.render (templateString PromptType.THERAPY_RESPONSE)
        ∈ (generateResponse (fun _ => Outcome.exn "boom") PromptType.THERAPY_RESPONSE []
            none false 0 (GeminiState.mk [] [])).2.2
      ∧ Event.upstreamCall 0
        ∈ (generateResponse (fun _ => Outcome.exn "boom") PromptType.THERAPY_RESPONSE []
            none false 0 (GeminiState.mk [] [])).2.2) :=
  ⟨by rfl,
   missing_field_degrades_not_raises PromptType.THERAPY_RESPONSE [] (by rfl)
     (fun _ => Outcome.exn "boom") none 0 (GeminiState.mk [] [])⟩

/-- Oracle for the C1 counterexample: the upstream service (called with the
raw template as prompt) returns a valid-looking reply. -/
def c1Oracle : Nat → Outcome :=
  fun _ => Outcome.ok "Thank you for sharing; you are doing your best today."

/-- Counterexample to C1 as stated: calling `generate` for a therapy-response
kind with an EMPTY context (missing the required `message` and `context`
fields) raises nothing — it performs one upstream generation call, writes the
generated text to the cache, and returns that text to the caller. -/
theorem missing_field_counterexample :
    hasRequiredFields PromptType.THERAPY_RESPONSE [] = false
    ∧ countUpstream (generateResponse c1Oracle PromptType.THERAPY_RESPONSE [] none false 0
        (GeminiState.mk [] [])).2.2 = 1
    ∧ (generateResponse c1Oracle PromptType.THERAPY_RESPONSE [] none false 0
        (GeminiState.mk [] [])).2.1.aiCache.length = 1
    ∧ (generateResponse c1Oracle PromptType.THERAPY_RESPONSE [] none false 0
        (GeminiState.mk [] [])).1
      = "Thank you for sharing; you are doing your best today." :=
  ⟨by rfl, by rfl, by rfl, by rfl⟩

/-- C7 amended: a caught exception is classified only by whether its message
contains "rate limit" or "quota" (case-insensitively). A rate-limited failure
with attempts remaining is followed by a backoff sleep of
`retry_delay * (attempt+1)` seconds — strictly increasing with the attempt
number — while a non-rate-limited failure is retried IMMEDIATELY (with no
sleep); neither kind is propagated: after the attempt bound the static
fallback is returned. -/
theorem retry_classification (oracle : Nat → Outcome) (pt : PromptType)
    (ctx : List (String × Json)) (uid : Option String) (now : Nat) (st : GeminiState)
    (m0 m1 m2 : String)
    (h0 : oracle 0 = Outcome.exn m0) (h1 : oracle 1 = Outcome.exn m1)
    (h2 : oracle 2 = Outcome.exn m2) :
    (generateResponse oracle pt ctx uid false now st).2.2
      = Event.render (buildPrompt pt ctx) :: Event.upstreamCall 0 ::
        ((if isRateLimitError m0 then [Event.sleep (retryDelay * 1)] else [])
          ++ Event.upstreamCall 1 ::
            ((if isRateLimitError m1 then [Event.sleep (retryDelay * 2)] else [])
              ++ [Event.upstreamCall 2]))
    ∧ (generateResponse oracle pt ctx uid false now st).1 = getFallbackResponse pt ctx := by
  constructor <;>
  · by_cases hr0 : isRateLimitError m0 = true <;>
      by_cases hr1 : isRateLimitError m1 = true <;>
        by_cases hr2 : isRateLimitError m2 = true <;>
          simp [generateResponse, runAttempts, h0, h1, h2, hr0, hr1, hr2,
            maxRetries, retryDelay, truthy]

/-- Oracle for the C7 witness: a rate-limited failure, a transport failure,
and a quota failure. -/
def c7WOracle : Nat → Outcome := fun i =>
  Outcome.exn (if i = 0 then "Rate limit reached" else
    if i = 1 then "connection reset by peer" else "Quota exceeded for project")

/-- Witness for C7 (amended): the trace shows a backoff sleep after the
rate-limited attempt 0, none after the non-rate-limited attempt 1, and the
fallback as result. -/
theorem retry_classification_witness :
    isRateLimitError "Rate limit reached" = true
    ∧ isRateLimitError "connection reset by peer" = false
    ∧ ((generateResponse c7WOracle PromptType.MOOD_SUMMARY
          [("mood_data", Json.str "m"), ("days", Json.num 7)] none false 0
          (GeminiState.mk [] [])).2.2
        = Event.render (buildPrompt PromptType.MOOD_SUMMARY
            [("mood_data", Json.str "m"), ("days", Json.num 7)]) :: Event.upstreamCall 0 ::
          ((if isRateLimitError "Rate limit reached" then [Event.sleep (retryDelay * 1)] else [])
            ++ Event.upstreamCall 1 ::
              ((if isRateLimitError "connection reset by peer"
                  then [Event.sleep (retryDelay * 2)] else [])
                ++ [Event.upstreamCall 2]))
      ∧ (generateResponse c7WOracle PromptType.MOOD_SUMMARY
          [("mood_data", Json.str "m"), ("days", Json.num 7)] none false 0
          (GeminiState.mk [] [])).1
        = getFallbackResponse PromptType.MOOD_SUMMARY
            [("mood_data", Json.str "m"), ("days", Json.num 7)]) :=
  ⟨by decide, by decide,
   retry_classification c7WOracle PromptType.MOOD_SUMMARY
     [("mood_data", Json.str "m"), ("days", Json.num 7)] none 0 (GeminiState.mk [] [])
     "Rate limit reached" "connection reset by peer" "Quota exceeded for project"
     rfl rfl rfl⟩

/-- Oracle for the C7 counterexample: a non-rate-limited failure, then a
valid success. -/
def c7Oracle : Nat → Outcome := fun i =>
  if i = 0 then Outcome.exn "connection reset by peer"
  else Outcome.ok "A perfectly good long response."

/-- Counterexample to C7 as stated: a non-retryable (non-rate-limit) failure
on attempt 0 is NOT propagated and a further attempt IS made — the second
attempt runs and its text is returned. -/
theorem retry_classification_counterexample :
    isRateLimitError "connection reset by peer" = false
    ∧ countUpstream (generateResponse c7Oracle PromptType.THERAPY_REFLECTION
        [("topics", Json.str "t"), ("mood", Json.str "m")] none false 0
        (GeminiState.mk [] [])).2.2 = 2
    ∧ (generateResponse c7Oracle PromptType.THERAPY_REFLECTION
        [("topics", Json.str "t"), ("mood", Json.str "m")] none false 0
        (GeminiState.mk [] [])).1 = "A perfectly good long response." :=
  ⟨by decide, by rfl, by rfl⟩

/-- C6 amended: neither lookup ever returns an entry whose validity window
has passed. `CacheService.get` additionally performs lazy expiry: when the
first row found for the key is expired, the rows of that key are deleted and
the lookup misses. `GeminiService._get_cached_response` instead filters
expired rows inside the query and performs NO removal (it is a pure read);
stale `ai_cache` rows stay in the store. -/
theorem lookup_expiry (key : String) (now : Nat) (store : List RcRow)
    (cache : List AiCacheRow) :
    (∀ v, (cacheGet key now store).1 = some v →
      ∃ r, store.find? (fun q => q.key == key) = some r ∧ r.value = v
        ∧ ¬(r.expiresAt < now))
    ∧ (∀ r, store.find? (fun q => q.key == key) = some r → r.expiresAt < now →
        (cacheGet key now store).1 = none
        ∧ ∀ q ∈ (cacheGet key now store).2, ¬(q.key == key) = true)
    ∧ (∀ v, getCachedResponse key now cache = some v →
        ∃ r ∈ cache, r.cacheKey = key ∧ r.response = v
          ∧ now - cacheTtlHours * 3600 ≤ r.createdAt) := by
  refine ⟨?_, ?_, ?_⟩
  · intro v hv
    unfold cacheGet at hv
    cases hf : store.find? (fun q => q.key == key) with
    | none => rw [hf] at hv; simp at hv
    | some r =>
      rw [hf] at hv
      by_cases he : r.expiresAt < now
      · simp [he] at hv
      · simp [he] at hv
        exact ⟨r, rfl, hv, he⟩
  · intro r hf he
    have hred : cacheGet key now store = (none, cacheDelete key store) := by
      unfold cacheGet
      rw [hf]
      simp [he]
    rw [hred]
    refine ⟨rfl, ?_⟩
    intro q hq
    have := (List.mem_filter.mp hq).2
    simpa using this
  · intro v hv
    rw [show getCachedResponse key now cache
        = (cache.find? (fun r => r.cacheKey == key
            && decide (now - cacheTtlHours * 3600 ≤ r.createdAt))).map
          (fun r => r.response) from rfl] at hv
    cases hf : cache.find? (fun r => r.cacheKey == key
        && decide (now - cacheTtlHours * 3600 ≤ r.createdAt)) with
    | none => rw [hf] at hv; simp at hv
    | some r =>
      rw [hf] at hv
      simp at hv
      have hmem := List.mem_of_find?_eq_some hf
      have hpred := List.find?_some hf
      rw [Bool.and_eq_true, decide_eq_true_eq] at hpred
      exact ⟨r, hmem, by simpa using hpred.1, hv, hpred.2⟩

/-- Witness for C6 (amended): an expired `response_cache` row is missed and
deleted by the lookup. -/
theorem lookup_expiry_witness :
    (cacheGet "k" 5 [RcRow.mk "k" "old" 3]).1 = none
    ∧ ∀ q ∈ (cacheGet "k" 5 [RcRow.mk "k" "old" 3]).2, ¬(q.key == "k") = true :=
  (lookup_expiry "k" 5 [RcRow.mk "k" "old" 3] []).2.1 (RcRow.mk "k" "old" 3)
    (by rfl) (by decide)

/-- The expired `ai_cache` row used in the C6 counterexample. -/
def c6Row : AiCacheRow := ⟨"k", PromptType.MOOD_SUMMARY, "an old cached text", 0⟩

/-- Counterexample to C6 as stated: the AI-cache lookup, one of the two
lookups the claim covers, never removes a stale entry. On a store holding
only an entry whose 24-hour window has passed, the lookup misses — but the
lookup is a pure read of the `ai_cache` table, so after it the store still
contains the stale entry. -/
theorem lookup_expiry_counterexample :
    getCachedResponse "k" 1000000 [c6Row] = none
    ∧ c6Row.createdAt < 1000000 - cacheTtlHours * 3600
    ∧ ([c6Row].filter (fun r => r.cacheKey == "k")).length = 1 :=
  ⟨by rfl, by decide, by rfl⟩

/-- C9 amended: `CacheService.set` has genuine upsert semantics — after a
second write to the same key the store holds exactly one row for that key
and an unexpired lookup returns the second value (last writer wins).
`GeminiService._cache_response`, by contrast, is a plain insert that appends
a row unconditionally, so the `ai_cache` table can accumulate several rows
per key and its lookup returns the first stored row. -/
theorem upsert_semantics (key : String) (v1 v2 : Json) (t1 t2 : Option Nat)
    (n1 n2 now : Nat) (store : List RcRow) (pt : PromptType) (resp : String)
    (st : GeminiState) :
    ((cacheSet key v2 t2 n2 (cacheSet key v1 t1 n1 store)).filter
        (fun r => r.key == key)).length = 1
    ∧ (¬(n2 + effTtl t2 < now) →
        (cacheGet key now (cacheSet key v2 t2 n2 (cacheSet key v1 t1 n1 store))).1
          = some (dumps v2))
    ∧ (cacheResponse key resp pt n2 st).aiCache
      = st.aiCache ++ [⟨key, pt, resp, n2⟩] := by
  have hfilter : ∀ l : List RcRow,
      (l.filter (fun r => !(r.key == key))).find? (fun r => r.key == key) = none := by
    intro l
    rw [List.find?_eq_none]
    intro x hx
    have := (List.mem_filter.mp hx).2
    simp at this
    simp [this]
  have h1 : ∀ l : List RcRow,
      (l.filter (fun r => !(r.key == key))).filter (fun r => r.key == key) = [] := by
    intro l
    rw [List.filter_eq_nil_iff]
    intro a ha
    have := (List.mem_filter.mp ha).2
    simp at this
    simp [this]
  refine ⟨?_, ?_, ?_⟩
  · unfold cacheSet
    rw [List.filter_append, h1]
    simp
  · intro hexp
    unfold cacheGet cacheSet
    rw [List.find?_append, hfilter]
    simp [hexp]
  · rfl

/-- Witness for C9 (amended) at concrete values: two writes to one key leave
one row, holding the second value. -/
theorem upsert_semantics_witness :
    ¬((10 : Nat) + effTtl none < 20)
    ∧ (((cacheSet "k" (Json.str "b") none 10 (cacheSet "k" (Json.str "a") none 0 [])).filter
          (fun r => r.key == "k")).length = 1
      ∧ (cacheGet "k" 20 (cacheSet "k" (Json.str "b") none 10
          (cacheSet "k" (Json.str "a") none 0 []))).1 = some (dumps (Json.str "b"))
      ∧ (cacheResponse "k" "r" PromptType.MOOD_SUMMARY 10 (GeminiState.mk [] [])).aiCache
        = [] ++ [⟨"k", PromptType.MOOD_SUMMARY, "r", 10⟩]) :=
  have hexp : ¬((10 : Nat) + effTtl none < 20) := by decide
  ⟨hexp,
   (upsert_semantics "k" (Json.str "a") (Json.str "b") none none 0 10 20 []
      PromptType.MOOD_SUMMARY "r" (GeminiState.mk [] [])).1,
   (upsert_semantics "k" (Json.str "a") (Json.str "b") none none 0 10 20 []
      PromptType.MOOD_SUMMARY "r" (GeminiState.mk [] [])).2.1 hexp,
   (upsert_semantics "k" (Json.str "a") (Json.str "b") none none 0 10 20 []
      PromptType.MOOD_SUMMARY "r" (GeminiState.mk [] [])).2.2⟩

/-- Counterexample to C9 as stated: two successive `_cache_response` writes
for the same key leave TWO rows in `ai_cache`, and the subsequent lookup
returns the FIRST (oldest) value, not the most recently written one. -/
theorem upsert_semantics_counterexample :
    ((cacheResponse "k" "second response" PromptType.MOOD_SUMMARY 200
        (cacheResponse "k" "first response" PromptType.MOOD_SUMMARY 100
          (GeminiState.mk [] []))).aiCache.filter
      (fun r => r.cacheKey == "k")).length = 2
    ∧ getCachedResponse "k" 300
        (cacheResponse "k" "second response" PromptType.MOOD_SUMMARY 200
          (cacheResponse "k" "first response" PromptType.MOOD_SUMMARY 100
            (GeminiState.mk [] []))).aiCache
      = some "first response" :=
  ⟨by rfl, by rfl⟩

/-- C10: `use_cache = false` disables only the cache lookup. A first-attempt
valid generation is still written to the cache, under the same key that a
cached call computes for the same kind and context; a later call with
`use_cache = true` within the TTL window observes it and returns it from the
cache without any upstream call. -/
theorem usecache_false_still_writes (oracle oracle2 : Nat → Outcome) (pt : PromptType)
    (ctx : List (String × Json)) (uid uid2 : Option String) (now now2 : Nat)
    (st : GeminiState) (raw : String)
    (h0 : oracle 0 = Outcome.ok raw)
    (hv : validateResponse (cleanResponse (pyStrip raw)) pt = true)
    (hclean : ∀ r ∈ st.aiCache, (r.cacheKey == getCacheKey pt ctx) = false)
    (hfresh : now2 - cacheTtlHours * 3600 ≤ now) :
    (generateResponse oracle pt ctx uid false now st).1 = cleanResponse (pyStrip raw)
    ∧ (generateResponse oracle pt ctx uid false now st).2.1.aiCache
      = st.aiCache ++ [⟨getCacheKey pt ctx, pt, cleanResponse (pyStrip raw), now⟩]
    ∧ generateResponse oracle2 pt ctx uid2 true now2
        (generateResponse oracle pt ctx uid false now st).2.1
      = (cleanResponse (pyStrip raw),
         (generateResponse oracle pt ctx uid false now st).2.1,
         [Event.cacheLookup (getCacheKey pt ctx)]) := by
  have hrun : runAttempts oracle pt (buildPrompt pt ctx) (getCacheKey pt ctx)
      uid now maxRetries 0 st
      = (some (cleanResponse (pyStrip raw)),
         logInteraction pt (buildPrompt pt ctx) (some (cleanResponse (pyStrip raw)))
           true none uid
           (cacheResponse (getCacheKey pt ctx) (cleanResponse (pyStrip raw)) pt now st),
         [Event.upstreamCall 0,
          Event.cacheWrite (getCacheKey pt ctx) (cleanResponse (pyStrip raw))]) := by
    rw [show maxRetries = 2 + 1 from rfl, runAttempts, h0]
    simp [hv]
  have hres : (generateResponse oracle pt ctx uid false now st).1
      = cleanResponse (pyStrip raw) := by
    unfold generateResponse
    simp [hrun]
  have hcache : (generateResponse oracle pt ctx uid false now st).2.1.aiCache
      = st.aiCache ++ [⟨getCacheKey pt ctx, pt, cleanResponse (pyStrip raw), now⟩] := by
    unfold generateResponse
    simp [hrun, logInteraction_aiCache, cacheResponse, enableCaching]
  have hlook : getCachedResponse (getCacheKey pt ctx) now2
      (generateResponse oracle pt ctx uid false now st).2.1.aiCache
      = some (cleanResponse (pyStrip raw)) := by
    rw [hcache]
    rw [show ∀ cache, getCachedResponse (getCacheKey pt ctx) now2 cache
        = (cache.find? (fun r => r.cacheKey == getCacheKey pt ctx
            && decide (now2 - cacheTtlHours * 3600 ≤ r.createdAt))).map
          (fun r => r.response) from fun _ => rfl]
    rw [List.find?_append]
    have hnone : st.aiCache.find? (fun r => r.cacheKey == getCacheKey pt ctx
        && decide (now2 - cacheTtlHours * 3600 ≤ r.createdAt)) = none := by
      rw [List.find?_eq_none]
      intro x hx
      simp [hclean x hx]
    rw [hnone]
    simp
    omega
  have hne : (cleanResponse (pyStrip raw)).data ≠ [] := by
    have := validateResponse_not_empty hv
    simpa using this
  refine ⟨hres, hcache, ?_⟩
  set st1 := (generateResponse oracle pt ctx uid false now st).2.1 with hst1
  unfold generateResponse
  simp [hlook, truthy, hne]

/-- Oracle for the C10 witness: the first attempt returns valid text. -/
def c10Oracle : Nat → Outcome := fun _ => Outcome.ok "  A solid long response text.  "

/-- Context for the C10 witness. -/
def c10Ctx : List (String × Json) :=
  [("duration", Json.num 30), ("topics", Json.str "stress"), ("mood", Json.str "calm")]

/-- Witness for C10 at concrete inputs: the no-cache call writes the entry and
a later cached call returns it. -/
theorem usecache_false_still_writes_witness :
    (generateResponse c10Oracle PromptType.SESSION_SUMMARY c10Ctx none false 100
      (GeminiState.mk [] [])).1 = cleanResponse (pyStrip "  A solid long response text.  ")
    ∧ (generateResponse c10Oracle PromptType.SESSION_SUMMARY c10Ctx none false 100
        (GeminiState.mk [] [])).2.1.aiCache
      = [] ++ [⟨getCacheKey PromptType.SESSION_SUMMARY c10Ctx, PromptType.SESSION_SUMMARY,
          cleanResponse (pyStrip "  A solid long response text.  "), 100⟩]
    ∧ generateResponse (fun _ => Outcome.exn "never called") PromptType.SESSION_SUMMARY
        c10Ctx none true 200
        (generateResponse c10Oracle PromptType.SESSION_SUMMARY c10Ctx none false 100
          (GeminiState.mk [] [])).2.1
      = (cleanResponse (pyStrip "  A solid long response text.  "),
         (generateResponse c10Oracle PromptType.SESSION_SUMMARY c10Ctx none false 100
           (GeminiState.mk [] [])).2.1,
         [Event.cacheLookup (getCacheKey PromptType.SESSION_SUMMARY c10Ctx)]) :=
  usecache_false_still_writes c10Oracle (fun _ => Outcome.exn "never called")
    PromptType.SESSION_SUMMARY c10Ctx none none 100 200 (GeminiState.mk [] [])
    "  A solid long response text.  " rfl (by rfl)
    (fun r hr => absurd hr (List.not_mem_nil r)) (by decide)

end MindMate
